import Mathlib

/-!
# Verification of the andamios-api authentication core

Shallow embedding, in Lean 4, of the authentication and request-authorization
core of the andamios-api repository:

- `src/andamios_api/core/config.py` — settings and startup validation
- `src/andamios_api/routers/auth.py` — registration, login, token issue/verify,
  identity resolution, logout
- `src/andamios_api/routers/users.py` — authenticated user CRUD
- `src/andamios_api/models/user.py` — the `users` table (exact-string unique
  email column)

External collaborators that are not part of this repository (the passlib
bcrypt context and the jose JWT codec) are modelled from the specification's
contract for them; every such definition is marked `Modelled from the spec:`
in its doc comment. Everything else is translated directly from the Python
source.
-/

namespace AndamiosApi

/-! ## JSON-style claim values and payload dictionaries

A JWT payload is a Python dict mapping claim names to values. The code only
ever stores strings (`sub`), numeric timestamps (`exp`), or `None` in these
dicts, so claim values are modelled by a three-constructor inductive. -/

/-! ## String helpers

Python's `str.lower()`, `str.strip()` and the `in` substring test, written as
structural recursions over the character list (ASCII case folding, which is
what the code relies on for emails). -/

/-- Python's `s.lower()` (ASCII case folding). -/
def pyLower (s : String) : String :=
  String.mk (s.data.map Char.toLower)

/-- Python's `s.strip()`. -/
def pyStrip (s : String) : String :=
  String.mk (((s.data.dropWhile Char.isWhitespace).reverse.dropWhile
    Char.isWhitespace).reverse)

/-- Whether `pat` starts the list `l`. -/
def charsStartWith (pat l : List Char) : Bool :=
  match pat, l with
  | [], _ => true
  | _ :: _, [] => false
  | p :: ps, c :: cs => p == c && charsStartWith ps cs

/-- Whether `pat` occurs contiguously inside `l`. -/
def charsContain (pat l : List Char) : Bool :=
  match l with
  | [] => pat.isEmpty
  | _ :: cs => charsStartWith pat l || charsContain pat cs

/-- Python's `pat in s` substring test. -/
def strContains (s pat : String) : Bool :=
  charsContain pat.data s.data

instance {ε α : Type} [DecidableEq ε] [DecidableEq α] :
    DecidableEq (Except ε α) := fun x y =>
  match x, y with
  | .ok a, .ok b =>
    if h : a = b then .isTrue (by rw [h]) else .isFalse (fun hc => h (Except.ok.inj hc))
  | .error a, .error b =>
    if h : a = b then .isTrue (by rw [h]) else .isFalse (fun hc => h (Except.error.inj hc))
  | .ok _, .error _ => .isFalse (fun hc => Except.noConfusion hc)
  | .error _, .ok _ => .isFalse (fun hc => Except.noConfusion hc)

inductive JValue where
  | str (s : String)
  | num (n : Nat)
  | null
deriving DecidableEq, Repr

/-- A JWT payload: an insertion-ordered dictionary of claims, as a Python
dict of claim name to value. -/
abbrev Payload := List (String × JValue)

/-- `d[k] = v` with Python dict semantics: replace in place when the key is
present, append otherwise. -/
def dictInsert (d : Payload) (k : String) (v : JValue) : Payload :=
  if d.any (fun p => p.1 == k) then
    d.map (fun p => if p.1 == k then (k, v) else p)
  else
    d ++ [(k, v)]

/-- `d.get(k)`: the value bound to `k`, if any. -/
def dictGet (d : Payload) (k : String) : Option JValue :=
  (d.find? (fun p => p.1 == k)).map Prod.snd

/-! ## Password hasher (passlib bcrypt context)

`auth.py` line 13 configures `CryptContext(schemes=["bcrypt"],
bcrypt__rounds=12)`. The passlib implementation is an external library, not
code of this repository, so the hasher is modelled from the spec (§4.1):
`hash` embeds a random salt and the configured cost factor and certifies the
plaintext; `verify` is a total boolean check that returns `false` on any
malformed hash string and never throws. One-way-ness of the digest is a
cryptographic property outside the model. -/

/-- Modelled from the spec: a stored hash string is either a well-formed
bcrypt hash (cost factor, embedded salt, digest certifying one plaintext)
or a malformed string that no plaintext verifies against. -/
inductive HashString where
  | bcrypt (cost : Nat) (salt : Nat) (digest : String)
  | malformed (raw : String)
deriving DecidableEq, Repr

/-- The cost factor configured on `pwd_context` (`bcrypt__rounds=12`). -/
def bcryptRounds : Nat := 12

/-- Modelled from the spec: `pwd_context.hash(plaintext)` — salted bcrypt
hash at the configured cost factor. The salt is made explicit as a
parameter (the library draws it at random). -/
def pwd_context_hash (plaintext : String) (salt : Nat) : HashString :=
  .bcrypt bcryptRounds salt plaintext

/-- Modelled from the spec: `pwd_context.verify(plaintext, hash)` — true
exactly when the hash is well-formed and certifies the plaintext; a
malformed hash string yields `false`, never an exception. -/
def pwd_context_verify (plaintext : String) (h : HashString) : Bool :=
  match h with
  | .bcrypt _ _ digest => plaintext == digest
  | .malformed _ => false

/-- The cost factor recorded in a well-formed hash, if it is well-formed. -/
def hashCost (h : HashString) : Option Nat :=
  match h with
  | .bcrypt cost _ _ => some cost
  | .malformed _ => none

/-! ## Data model: accounts and the credential store

`models/user.py`: the `users` table with an integer primary key, name, an
exact-string `unique=True` email column, and the stored password hash.
The credential store is the list of rows of that table. -/

structure User where
  id : Nat
  name : String
  email : String
  password_hash : HashString
deriving DecidableEq, Repr

/-- The credential store: the rows of the `users` table. -/
abbrev Store := List User

/-! ## Settings (`core/config.py`) -/

structure Settings where
  environment : String
  database_url : String
  api_debug : Bool
  cors_allow_origins : String
  jwt_secret_key : String
  jwt_algorithm : String
  jwt_access_token_expire_minutes : Nat
deriving DecidableEq, Repr

/-- The field defaults of `Settings` in `core/config.py`. -/
def defaultSettings : Settings :=
  { environment := "development"
    database_url := "sqlite:///andamios_dev.db"
    api_debug := true
    cors_allow_origins := "http://localhost:3000,http://localhost:8080"
    jwt_secret_key := "dev-secret-key-change-in-production"
    jwt_algorithm := "HS256"
    jwt_access_token_expire_minutes := 30 }

/-- The two placeholder signing keys rejected in production
(`config.py` lines 40 and 102). -/
def placeholderKeys : List String :=
  ["dev-secret-key-change-in-production", "your-production-secret-key-here"]

/-- `Settings.validate_jwt_secret_key` (config.py lines 37-42): the pydantic
field validator that rejects a placeholder key when constructing `Settings`
in a production environment. -/
def validate_jwt_secret_key (environment v : String) : Except String String :=
  if environment == "production" && placeholderKeys.contains v then
    .error "JWT secret key must be changed in production environment"
  else
    .ok v

/-- `validate_required_config` (config.py lines 95-122): collects every
configuration error for the current environment and raises (returns
`.error`) when any is present. Note `not settings.jwt_secret_key` (the empty
string) is subsumed by the length check. -/
def validate_required_config (s : Settings) : Except String Unit :=
  let prodErrors : List String :=
    if s.environment == "production" then
      (if placeholderKeys.contains s.jwt_secret_key then
        ["JWT_SECRET_KEY must be set to a secure value in production"] else []) ++
      (if s.api_debug then
        ["API_DEBUG should be false in production"] else []) ++
      (if strContains s.cors_allow_origins "localhost" then
        ["CORS_ALLOW_ORIGINS should not include localhost in production"] else [])
    else []
  let generalErrors : List String :=
    (if pyStrip s.database_url == "" then
      ["DATABASE_URL is required"] else []) ++
    (if s.jwt_secret_key.length < 16 then
      ["JWT_SECRET_KEY must be at least 16 characters long"] else [])
  let errors := prodErrors ++ generalErrors
  if errors.isEmpty then
    .ok ()
  else
    .error (errors.foldl (fun m e => m ++ "  - " ++ e ++ "\n")
      ("Configuration validation failed for environment '" ++ s.environment ++ "':\n"))

/-! ## Bearer tokens, issuer and verifier

`create_access_token` (auth.py lines 28-36) builds the payload dict in
repository code and hands it to `jose.jwt.encode` to sign; `get_current_user`
(lines 38-56) hands the presented credential to `jose.jwt.decode`. The jose
codec is an external library, so signing is modelled transparently — a signed
token is its payload together with the key and algorithm it was signed under —
and `jwt_decode` is modelled from the spec's Token Verifier contract (§4.3):
check the signature against the configured key and algorithm, decode the
payload, and check `now < expiry`; every rejection is the single opaque
`JWTError`. -/

structure Token where
  payload : Payload
  key : String
  alg : String
deriving DecidableEq, Repr

/-- A presented bearer credential: either a string that does not parse as a
JWT at all, or a (well-formed) signed token. -/
inductive Bearer where
  | malformed (raw : String)
  | signed (t : Token)
deriving DecidableEq, Repr

/-- Modelled from the spec: `jose.jwt.encode(payload, key, algorithm)` —
signing binds the payload to the key/algorithm pair. -/
def jwt_encode (payload : Payload) (key : String) (alg : String) : Token :=
  { payload := payload, key := key, alg := alg }

/-- Modelled from the spec: `jose.jwt.decode(token, key, algorithms)` at
wall-clock time `now` (seconds). Rejects a malformed credential, a signature
made under a different key or an algorithm outside the accepted list, and a
token whose expiry claim is missing, non-numeric, or not in the future
(§4.3: check `now < expiry`). All rejections are one opaque error. -/
def jwt_decode (b : Bearer) (key : String) (algs : List String) (now : Nat) :
    Except Unit Payload :=
  match b with
  | .malformed _ => .error ()
  | .signed t =>
    if t.key == key && algs.contains t.alg then
      match dictGet t.payload "exp" with
      | some (.num e) => if now < e then .ok t.payload else .error ()
      | _ => .error ()
    else .error ()

/-- `create_access_token` (auth.py lines 28-36): copy the caller's claim
dict, set `exp` to now plus the requested delta (seconds) — or now plus the
configured TTL when no delta is given — and sign under the configured key
and algorithm. `now` stands for `datetime.utcnow()` in seconds. -/
def create_access_token (s : Settings) (now : Nat) (data : Payload)
    (expires_delta : Option Nat) : Token :=
  let expire : Nat :=
    match expires_delta with
    | some d => now + d
    | none => now + s.jwt_access_token_expire_minutes * 60
  jwt_encode (dictInsert data "exp" (.num expire)) s.jwt_secret_key s.jwt_algorithm

/-! ## HTTP-level results -/

structure HTTPError where
  status : Nat
  detail : String
deriving DecidableEq, Repr

/-- The single credentials failure raised by `get_current_user`
(auth.py lines 39-43). -/
def credentials_exception : HTTPError :=
  { status := 401, detail := "Could not validate credentials" }

/-- The single login failure raised by `login_user` (auth.py lines 161-165). -/
def login_failure : HTTPError :=
  { status := 401, detail := "Incorrect email or password" }

/-! ## Identity resolution -/

/-- `User.read(user_id)` where `user_id` is the raw `sub` claim value: the
ORM resolves a string subject against the integer primary key (observed
through the repository's integration tests; the auth flow stores
`str(db_user.id)` as `sub`). A `null` subject resolves nothing. -/
def readUserBySub (store : Store) (v : JValue) : Option User :=
  match v with
  | .str s => store.find? (fun u => toString u.id == s)
  | .num n => store.find? (fun u => u.id == n)
  | .null => none

/-- `get_current_user` (auth.py lines 38-56): decode the bearer credential
under the configured key and algorithm (any `JWTError` becomes the single
credentials failure), reject a missing or `None` `sub` claim, resolve the
account, and reject when no account exists. Every rejection path raises the
same `credentials_exception`. -/
def get_current_user (store : Store) (s : Settings) (now : Nat) (b : Bearer) :
    Except HTTPError User :=
  match jwt_decode b s.jwt_secret_key [s.jwt_algorithm] now with
  | .error _ => .error credentials_exception
  | .ok payload =>
    match dictGet payload "sub" with
    | none => .error credentials_exception
    | some .null => .error credentials_exception
    | some v =>
      match readUserBySub store v with
      | none => .error credentials_exception
      | some u => .ok u

/-! ## Request and response bodies -/

structure UserRegister where
  email : String
  name : String
  password : String
deriving DecidableEq, Repr

structure UserLogin where
  email : String
  password : String
deriving DecidableEq, Repr

structure UserCreate where
  email : String
  name : String
  password : String
deriving DecidableEq, Repr

structure UserUpdate where
  email : Option String
  name : Option String
deriving DecidableEq, Repr

structure UserResponse where
  id : Nat
  email : String
  name : String
deriving DecidableEq, Repr

structure TokenResponse where
  access_token : Token
  token_type : String
deriving DecidableEq, Repr

/-! ## Registration, login, logout (auth.py) -/

/-- `register_user` (auth.py lines 85-117): scan all stored accounts and
reject with 400 when any stored email equals the submitted one after case
folding; otherwise hash the password and create the account. `freshId` is
the primary key the store assigns and `salt` the salt the hasher draws; the
case-insensitive scan subsumes the exact-string database constraint, so the
constraint-failure fallback (lines 107-117) is unreachable on the success
path. Returns the endpoint result and the store after the call. -/
def register_user (store : Store) (freshId salt : Nat) (req : UserRegister) :
    Except HTTPError UserResponse × Store :=
  if store.any (fun u => pyLower u.email == pyLower req.email) then
    (.error { status := 400, detail := "Email already registered" }, store)
  else
    let hashed := pwd_context_hash req.password salt
    let nu : User := { id := freshId, name := req.name, email := req.email,
                       password_hash := hashed }
    (.ok { id := freshId, email := req.email, name := req.name }, store ++ [nu])

/-- `login_user` (auth.py lines 151-171): find the first stored account whose
email equals the submitted email exactly (`u.email == user.email` — no case
folding); if none, or the password does not verify against the stored hash,
raise the single 401 login failure; otherwise issue a token whose `sub` is
the account id and whose expiry is the configured TTL from now. -/
def login_user (store : Store) (s : Settings) (now : Nat) (req : UserLogin) :
    Except HTTPError TokenResponse :=
  match store.find? (fun u => u.email == req.email) with
  | none => .error login_failure
  | some db_user =>
    if pwd_context_verify req.password db_user.password_hash then
      .ok { access_token :=
              create_access_token s now [("sub", .str (toString db_user.id))]
                (some (s.jwt_access_token_expire_minutes * 60)),
            token_type := "bearer" }
    else
      .error login_failure

/-- `logout_user` (auth.py lines 191-193): acknowledges the call and touches
nothing — the store and settings after the call are the ones passed in. -/
def logout_user (store : Store) (s : Settings) (current_user : User) :
    String × Store × Settings :=
  ("Successfully logged out", store, s)

/-! ## Authenticated user CRUD (users.py)

These endpoints run behind `get_current_user`. `User.create` and
`User.update` are backed by the `users` table whose email column is
`unique=True` — an exact-string constraint; a constraint violation raised by
the store propagates out of these handlers unhandled (a 500), since unlike
`register_user` they perform no duplicate check of their own. -/

/-- `create_user` (users.py lines 61-72): hash the password and create the
account with no email scan; only the store's exact-string unique constraint
can reject, and its violation escapes as an internal error. -/
def create_user (store : Store) (freshId salt : Nat) (req : UserCreate) :
    Except HTTPError UserResponse × Store :=
  if store.any (fun u => u.email == req.email) then
    (.error { status := 500, detail := "Internal Server Error" }, store)
  else
    let nu : User := { id := freshId, name := req.name, email := req.email,
                       password_hash := pwd_context_hash req.password salt }
    (.ok { id := freshId, email := req.email, name := req.name }, store ++ [nu])

/-- Apply a partial update to one user row. -/
def applyUpdate (u : User) (upd : UserUpdate) : User :=
  { u with email := upd.email.getD u.email, name := upd.name.getD u.name }

/-- `update_user` (users.py lines 126-141): reject an empty update with 400;
404 when no row has the id; otherwise apply the non-`None` fields. The only
email check is the store's exact-string unique constraint, whose violation
escapes as an internal error. -/
def update_user (store : Store) (user_id : Nat) (upd : UserUpdate) :
    Except HTTPError UserResponse × Store :=
  if upd.email.isNone && upd.name.isNone then
    (.error { status := 400, detail := "No fields to update" }, store)
  else
    match store.find? (fun u => u.id == user_id) with
    | none => (.error { status := 404, detail := "User not found" }, store)
    | some u =>
      let u' := applyUpdate u upd
      if store.any (fun v => v.id != user_id && v.email == u'.email) then
        (.error { status := 500, detail := "Internal Server Error" }, store)
      else
        (.ok { id := u'.id, email := u'.email, name := u'.name },
         store.map (fun v => if v.id == user_id then applyUpdate v upd else v))

/-! ## The case-folded email uniqueness invariant (spec §3) -/

/-- No two stored accounts compare equal under case-folded email. -/
def emailsCaseFoldedUnique : Store → Bool
  | [] => true
  | u :: rest =>
    rest.all (fun v => pyLower u.email != pyLower v.email) &&
    emailsCaseFoldedUnique rest

/-! ## Concrete fixtures used by the witness theorems -/

/-- A concrete stored account used to instantiate the authentication
theorems. -/
def wUser : User :=
  { id := 1, name := "Ann", email := "a@x.com",
    password_hash := pwd_context_hash "password123" 7 }

/-- A concrete token signed under the configured key, `sub = "1"`,
expiring at time 2000. -/
def wToken : Token :=
  { payload := [("sub", .str "1"), ("exp", .num 2000)],
    key := defaultSettings.jwt_secret_key, alg := "HS256" }

/-- A one-account store satisfying the case-folded-uniqueness invariant. -/
def demoStore : Store :=
  [{ id := 1, name := "Ann", email := "a@x.com",
     password_hash := pwd_context_hash "password123" 7 }]

/-- `demoStore` plus a second account with a distinct email. -/
def demoStore2 : Store :=
  demoStore ++
    [{ id := 2, name := "Bob", email := "b@y.com",
       password_hash := pwd_context_hash "password456" 8 }]

/-! ## Theorems

Helper lemmas first (the acceptance characterisation of `get_current_user`
and payload computations), then one theorem per verified claim, each with
its witness where the statement carries hypotheses. -/

theorem gcu_cases (store : Store) (s : Settings) (now : Nat) (b : Bearer) :
    get_current_user store s now b = .error credentials_exception ∨
    ∃ u, get_current_user store s now b = .ok u := by
  unfold get_current_user
  split
  · exact .inl rfl
  · split
    · exact .inl rfl
    · exact .inl rfl
    · split
      · exact .inl rfl
      · exact .inr ⟨_, rfl⟩

theorem gcu_ok_iff (store : Store) (s : Settings) (now : Nat) (b : Bearer) (u : User) :
    get_current_user store s now b = .ok u ↔
    ∃ t, b = .signed t ∧ t.key = s.jwt_secret_key ∧ t.alg = s.jwt_algorithm ∧
      (∃ e, dictGet t.payload "exp" = some (.num e) ∧ now < e) ∧
      ∃ v, dictGet t.payload "sub" = some v ∧ v ≠ JValue.null ∧
        readUserBySub store v = some u := by
  constructor
  · intro h
    unfold get_current_user at h
    split at h
    · exact absurd h (by simp)
    · rename_i payload hdec
      unfold jwt_decode at hdec
      split at hdec
      · exact absurd hdec (by simp)
      · rename_i t
        split at hdec
        · rename_i hcond
          split at hdec
          · rename_i e hexp
            split at hdec
            · rename_i hlt
              cases hdec
              refine ⟨t, rfl, ?_, ?_, ⟨e, hexp, hlt⟩, ?_⟩
              · have := (Bool.and_eq_true ..).mp hcond
                exact beq_iff_eq.mp this.1
              · have := (Bool.and_eq_true ..).mp hcond
                have h2 := this.2
                simp [List.contains_cons] at h2
                exact h2
              · split at h
                · exact absurd h (by simp)
                · exact absurd h (by simp)
                · rename_i v hvnull hsub
                  split at h
                  · exact absurd h (by simp)
                  · rename_i u' hread
                    cases h
                    exact ⟨v, hsub, hvnull, hread⟩
            · exact absurd hdec (by simp)
          · exact absurd hdec (by simp)
        · exact absurd hdec (by simp)
  · rintro ⟨t, rfl, hk, ha, ⟨e, hexp, hlt⟩, v, hsub, hnn, hread⟩
    have hdec : jwt_decode (.signed t) s.jwt_secret_key [s.jwt_algorithm] now
        = .ok t.payload := by
      simp [jwt_decode, hk, ha, hexp, hlt]
    unfold get_current_user
    rw [hdec]
    simp only [hsub]
    cases v with
    | null => exact absurd rfl hnn
    | str sv => simp [hread]
    | num nv => simp [hread]

/-! ## Helper lemmas on payload dictionaries -/

theorem sub_beq_exp_false : (("sub" : String) == "exp") = false := by decide

theorem dictInsert_sub_exp (v x : JValue) :
    dictInsert [("sub", v)] "exp" x = [("sub", v), ("exp", x)] := by
  simp [dictInsert, sub_beq_exp_false]

theorem dictGet_sub_exp_exp (v x : JValue) :
    dictGet [("sub", v), ("exp", x)] "exp" = some x := by
  simp [dictGet, List.find?, sub_beq_exp_false]

theorem dictGet_sub_exp_sub (v x : JValue) :
    dictGet [("sub", v), ("exp", x)] "sub" = some v := by
  simp [dictGet, List.find?]

/-- The payload built by `create_access_token` from the login claim set:
exactly the `sub` claim passed in and the computed `exp` claim. -/
theorem create_access_token_payload (s : Settings) (now : Nat) (v : JValue)
    (delta : Option Nat) :
    (create_access_token s now [("sub", v)] delta).payload =
      [("sub", v),
       ("exp", .num (now + delta.getD (s.jwt_access_token_expire_minutes * 60)))] := by
  cases delta <;>
    simp [create_access_token, jwt_encode, dictInsert_sub_exp, Option.getD]

theorem create_access_token_key (s : Settings) (now : Nat) (d : Payload)
    (delta : Option Nat) :
    (create_access_token s now d delta).key = s.jwt_secret_key := by
  cases delta <;> rfl

theorem create_access_token_alg (s : Settings) (now : Nat) (d : Payload)
    (delta : Option Nat) :
    (create_access_token s now d delta).alg = s.jwt_algorithm := by
  cases delta <;> rfl

/-- Claim C2: every rejection path of the bearer-token authenticator — a
malformed credential, a token signed under a different key, an expired
token, a token whose payload lacks a `sub` claim, and a well-formed
unexpired token whose subject names no stored account — produces the one
`credentials_exception` (HTTP 401, detail "Could not validate
credentials"), with no observable difference between the checks. -/
theorem C2_rejections_indistinguishable (store : Store) (s : Settings) (now : Nat) :
    credentials_exception = { status := 401, detail := "Could not validate credentials" } ∧
    (∀ raw, get_current_user store s now (.malformed raw) = .error credentials_exception) ∧
    (∀ t, t.key ≠ s.jwt_secret_key →
      get_current_user store s now (.signed t) = .error credentials_exception) ∧
    (∀ t e, dictGet t.payload "exp" = some (.num e) → e ≤ now →
      get_current_user store s now (.signed t) = .error credentials_exception) ∧
    (∀ t, dictGet t.payload "sub" = none →
      get_current_user store s now (.signed t) = .error credentials_exception) ∧
    (∀ t v e, dictGet t.payload "exp" = some (.num e) → now < e →
      dictGet t.payload "sub" = some v → readUserBySub store v = none →
      get_current_user store s now (.signed t) = .error credentials_exception) := by
  refine ⟨rfl, fun raw => rfl, ?_, ?_, ?_, ?_⟩
  · intro t hne
    rcases gcu_cases store s now (.signed t) with h | ⟨u, h⟩
    · exact h
    · rcases (gcu_ok_iff store s now (.signed t) u).mp h with ⟨t', ht', hk, -⟩
      cases ht'
      exact absurd hk hne
  · intro t e hexp hle
    rcases gcu_cases store s now (.signed t) with h | ⟨u, h⟩
    · exact h
    · rcases (gcu_ok_iff store s now (.signed t) u).mp h with
        ⟨t', ht', -, -, ⟨e', hexp', hlt⟩, -⟩
      cases ht'
      rw [hexp] at hexp'
      have : e = e' := by simpa using hexp'
      omega
  · intro t hsub
    rcases gcu_cases store s now (.signed t) with h | ⟨u, h⟩
    · exact h
    · rcases (gcu_ok_iff store s now (.signed t) u).mp h with
        ⟨t', ht', -, -, -, v, hsub', -⟩
      cases ht'
      rw [hsub] at hsub'
      exact absurd hsub' (by simp)
  · intro t v e hexp hlt hsub hread
    rcases gcu_cases store s now (.signed t) with h | ⟨u, h⟩
    · exact h
    · rcases (gcu_ok_iff store s now (.signed t) u).mp h with
        ⟨t', ht', -, -, -, v', hsub', -, hread'⟩
      cases ht'
      rw [hsub] at hsub'
      have : v = v' := by simpa using hsub'
      rw [← this, hread] at hread'
      exact absurd hread' (by simp)

/-- Claim C6: a token issued at `t0` with the configured TTL of `m` minutes
verifies at every time strictly before `t0 + m*60` seconds and is rejected
as the single credentials failure at every time strictly after it. -/
theorem C6_ttl_boundary (store : Store) (s : Settings) (t0 : Nat) (sub : String)
    (u : User) (hu : readUserBySub store (.str sub) = some u) :
    (∀ now, now < t0 + s.jwt_access_token_expire_minutes * 60 →
      get_current_user store s now
        (.signed (create_access_token s t0 [("sub", .str sub)]
          (some (s.jwt_access_token_expire_minutes * 60)))) = .ok u) ∧
    (∀ now, t0 + s.jwt_access_token_expire_minutes * 60 < now →
      get_current_user store s now
        (.signed (create_access_token s t0 [("sub", .str sub)]
          (some (s.jwt_access_token_expire_minutes * 60)))) = .error credentials_exception) := by
  set tok := create_access_token s t0 [("sub", JValue.str sub)]
    (some (s.jwt_access_token_expire_minutes * 60)) with htok
  have hpay : tok.payload =
      [("sub", JValue.str sub),
       ("exp", JValue.num (t0 + s.jwt_access_token_expire_minutes * 60))] := by
    rw [htok, create_access_token_payload]
    rfl
  constructor
  · intro now hnow
    refine (gcu_ok_iff store s now (.signed tok) u).mpr
      ⟨tok, rfl, create_access_token_key .., create_access_token_alg .., ?_, ?_⟩
    · exact ⟨t0 + s.jwt_access_token_expire_minutes * 60,
        by rw [hpay]; exact dictGet_sub_exp_exp .., hnow⟩
    · exact ⟨JValue.str sub, by rw [hpay]; exact dictGet_sub_exp_sub .., by simp, hu⟩
  · intro now hnow
    rcases gcu_cases store s now (.signed tok) with h | ⟨u', h⟩
    · exact h
    · rcases (gcu_ok_iff store s now (.signed tok) u').mp h with
        ⟨t', ht', -, -, ⟨e, hexp, hlt⟩, -⟩
      cases ht'
      rw [hpay, dictGet_sub_exp_exp] at hexp
      have : e = t0 + s.jwt_access_token_expire_minutes * 60 := by simpa using hexp.symm
      omega

/-- Claim C10: the authenticator accepts a bearer credential exactly when it
is a token signed under the configured key and algorithm whose expiry claim
lies in the future and whose non-null subject resolves to a stored account,
which it returns unchanged; no issued-at claim is required or checked, so a
token whose expiry lies arbitrarily far beyond the configured TTL is
accepted. -/
theorem C10_accept_characterisation (store : Store) (s : Settings) (now : Nat)
    (b : Bearer) (u : User) :
    (get_current_user store s now b = .ok u ↔
      ∃ t, b = .signed t ∧ t.key = s.jwt_secret_key ∧ t.alg = s.jwt_algorithm ∧
        (∃ e, dictGet t.payload "exp" = some (.num e) ∧ now < e) ∧
        ∃ v, dictGet t.payload "sub" = some v ∧ v ≠ JValue.null ∧
          readUserBySub store v = some u) ∧
    (∀ extra v, v ≠ JValue.null → readUserBySub store v = some u →
      get_current_user store s now
        (.signed { payload := [("sub", v), ("exp", .num (now + 1 + extra))],
                   key := s.jwt_secret_key, alg := s.jwt_algorithm }) = .ok u) := by
  refine ⟨gcu_ok_iff store s now b u, ?_⟩
  intro extra v hnn hread
  refine (gcu_ok_iff store s now _ u).mpr
    ⟨_, rfl, rfl, rfl, ⟨now + 1 + extra, dictGet_sub_exp_exp .., by omega⟩,
     ⟨v, dictGet_sub_exp_sub .., hnn, hread⟩⟩

/-- Witness for C2: the five concrete rejection scenarios all evaluate to
the same `credentials_exception`. -/
theorem C2_rejections_indistinguishable_witness :
    get_current_user [wUser] defaultSettings 1000 (.malformed "garbage")
      = .error credentials_exception ∧
    get_current_user [wUser] defaultSettings 1000
      (.signed { wToken with key := "some-other-signing-key" })
      = .error credentials_exception ∧
    get_current_user [wUser] defaultSettings 2500 (.signed wToken)
      = .error credentials_exception ∧
    get_current_user [wUser] defaultSettings 1000
      (.signed { wToken with payload := [("exp", .num 2000)] })
      = .error credentials_exception ∧
    get_current_user [wUser] defaultSettings 1000
      (.signed { wToken with payload := [("sub", .str "99"), ("exp", .num 2000)] })
      = .error credentials_exception :=
  ⟨(C2_rejections_indistinguishable [wUser] defaultSettings 1000).2.1 "garbage",
   (C2_rejections_indistinguishable [wUser] defaultSettings 1000).2.2.1 _ (by decide),
   (C2_rejections_indistinguishable [wUser] defaultSettings 2500).2.2.2.1 _ 2000
     (by decide) (by decide),
   (C2_rejections_indistinguishable [wUser] defaultSettings 1000).2.2.2.2.1 _
     (by decide),
   (C2_rejections_indistinguishable [wUser] defaultSettings 1000).2.2.2.2.2 _
     (.str "99") 2000 (by decide) (by decide) (by decide) (by decide)⟩

/-- Witness for C6: with the default 30-minute TTL, a token issued at 1000
is accepted at 2799 and rejected at 2801. -/
theorem C6_ttl_boundary_witness :
    get_current_user [wUser] defaultSettings 2799
      (.signed (create_access_token defaultSettings 1000 [("sub", .str "1")]
        (some (defaultSettings.jwt_access_token_expire_minutes * 60)))) = .ok wUser ∧
    get_current_user [wUser] defaultSettings 2801
      (.signed (create_access_token defaultSettings 1000 [("sub", .str "1")]
        (some (defaultSettings.jwt_access_token_expire_minutes * 60))))
      = .error credentials_exception :=
  ⟨(C6_ttl_boundary [wUser] defaultSettings 1000 "1" wUser (by decide)).1 2799
     (by decide),
   (C6_ttl_boundary [wUser] defaultSettings 1000 "1" wUser (by decide)).2 2801
     (by decide)⟩

/-- Witness for C10: a token whose expiry lies 5000 seconds past `now`
(far beyond the 30-minute TTL) and carries no issued-at claim is accepted. -/
theorem C10_accept_characterisation_witness :
    get_current_user [wUser] defaultSettings 1000
      (.signed { payload := [("sub", .str "1"), ("exp", .num (1000 + 1 + 5000))],
                 key := defaultSettings.jwt_secret_key,
                 alg := defaultSettings.jwt_algorithm }) = .ok wUser :=
  (C10_accept_characterisation [wUser] defaultSettings 1000 (.malformed "x") wUser).2
    5000 (.str "1") (by decide) (by decide)

/-- Claim C1 fails on the code: registering with email `"A@x.com"` and then
logging in with the case-variant `"a@x.com"` and the correct password is
rejected with the 401 login failure, while the exact-case login succeeds —
`login_user` compares emails without case folding. -/
theorem C1_login_case_variant_rejected :
    (register_user [] 1 7 { email := "A@x.com", name := "John", password := "password123" }).1
      = .ok { id := 1, email := "A@x.com", name := "John" } ∧
    login_user
      (register_user [] 1 7 { email := "A@x.com", name := "John", password := "password123" }).2
      defaultSettings 1000 { email := "a@x.com", password := "password123" }
      = .error login_failure ∧
    login_user
      (register_user [] 1 7 { email := "A@x.com", name := "John", password := "password123" }).2
      defaultSettings 1000 { email := "A@x.com", password := "password123" }
      = .ok { access_token :=
                { payload := [("sub", .str "1"), ("exp", .num 2800)],
                  key := defaultSettings.jwt_secret_key,
                  alg := defaultSettings.jwt_algorithm },
              token_type := "bearer" } := by
  decide

/-- Claim C4 fails on the code: the issued payload carries no issued-at
claim — it has exactly the two claims `sub` and `exp`. -/
theorem C4_counterexample :
    dictGet (create_access_token defaultSettings 1000 [("sub", JValue.str "1")]
      (some 1800)).payload "iat" = none ∧
    (create_access_token defaultSettings 1000 [("sub", JValue.str "1")]
      (some 1800)).payload.length = 2 := by
  decide

/-- Claim C4 (amended): a token issued from the login claim set carries
exactly two claims — the subject passed in and an expiry equal to the issue
time plus the requested TTL (the configured TTL when none is requested);
no issued-at or other claim is present. -/
theorem C4_payload_exactly_sub_and_exp (s : Settings) (now : Nat) (v : JValue)
    (delta : Option Nat) :
    (create_access_token s now [("sub", v)] delta).payload =
      [("sub", v),
       ("exp", .num (now + delta.getD (s.jwt_access_token_expire_minutes * 60)))] :=
  create_access_token_payload s now v delta

theorem exists_error_of_ne_ok (x : Except String Unit) (h : x ≠ .ok ()) :
    ∃ msg, x = .error msg := by
  cases x with
  | error msg => exact ⟨msg, rfl⟩
  | ok v => cases v; exact absurd rfl h

/-- Claim C3: startup validation raises whenever the environment is
production and the signing key is a placeholder (both in the pydantic field
validator and in `validate_required_config`), and whenever the signing key
is shorter than 16 characters in any environment; with a valid key and the
remaining settings in order it completes without error. -/
theorem C3_startup_validation (s : Settings) :
    (s.environment = "production" → s.jwt_secret_key ∈ placeholderKeys →
      (∃ msg, validate_required_config s = .error msg) ∧
      ∃ msg, validate_jwt_secret_key s.environment s.jwt_secret_key = .error msg) ∧
    (s.jwt_secret_key.length < 16 →
      ∃ msg, validate_required_config s = .error msg) ∧
    (16 ≤ s.jwt_secret_key.length → pyStrip s.database_url ≠ "" →
      (s.environment = "production" →
        s.jwt_secret_key ∉ placeholderKeys ∧ s.api_debug = false ∧
        strContains s.cors_allow_origins "localhost" = false) →
      validate_required_config s = .ok ()) := by
  refine ⟨?_, ?_, ?_⟩
  · intro hprod hph
    constructor
    · refine exists_error_of_ne_ok _ ?_
      intro hok
      simp [validate_required_config, hprod] at hok
      exact hok.1 hph
    · exact ⟨"JWT secret key must be changed in production environment",
        by simp [validate_jwt_secret_key, hprod, hph]⟩
  · intro hlen
    refine exists_error_of_ne_ok _ ?_
    intro hok
    simp [validate_required_config, hlen] at hok
  · intro h16 hdb hprodfields
    have hlen : ¬s.jwt_secret_key.length < 16 := by omega
    by_cases henv : s.environment = "production"
    · obtain ⟨hph, hdbg, hcors⟩ := hprodfields henv
      simp [validate_required_config, henv, hph, hdbg, hcors, hdb, hlen]
    · simp [validate_required_config, henv, hdb, hlen]

/-- Witness for C3: validation rejects the production-with-placeholder-key
settings and the short-key settings, and accepts the default development
settings. -/
theorem C3_startup_validation_witness :
    ((∃ msg, validate_required_config
        { defaultSettings with environment := "production" } = .error msg) ∧
     ∃ msg, validate_jwt_secret_key "production"
        "dev-secret-key-change-in-production" = .error msg) ∧
    (∃ msg, validate_required_config
        { defaultSettings with jwt_secret_key := "short" } = .error msg) ∧
    validate_required_config defaultSettings = .ok () :=
  ⟨(C3_startup_validation { defaultSettings with environment := "production" }).1
      rfl (by decide),
   (C3_startup_validation { defaultSettings with jwt_secret_key := "short" }).2.1
      (by decide),
   (C3_startup_validation defaultSettings).2.2 (by decide) (by decide)
      (fun h => absurd h (by decide))⟩

theorem emailsCaseFoldedUnique_append (store : Store) (nu : User)
    (h : emailsCaseFoldedUnique store = true)
    (hall : ∀ u ∈ store, (pyLower u.email == pyLower nu.email) = false) :
    emailsCaseFoldedUnique (store ++ [nu]) = true := by
  induction store with
  | nil => simp [emailsCaseFoldedUnique]
  | cons u rest ih =>
    simp only [emailsCaseFoldedUnique, Bool.and_eq_true, List.cons_append] at h ⊢
    refine ⟨?_, ih h.2 (fun x hx => hall x (List.mem_cons_of_mem _ hx))⟩
    rw [show rest.append [nu] = rest ++ [nu] from rfl, List.all_append]
    refine (Bool.and_eq_true ..).mpr ⟨h.1, ?_⟩
    have hu := hall u (List.mem_cons_self _ _)
    simp [bne, hu]

/-- Claim C5 fails on the code: starting from a store satisfying the
case-folded email-uniqueness invariant, the authenticated `create_user`
endpoint accepts a case-variant of an existing email (only the exact-string
store constraint guards it) and produces a store violating the invariant. -/
theorem C5_counterexample :
    emailsCaseFoldedUnique demoStore = true ∧
    (create_user demoStore 2 8
      { email := "A@x.com", name := "Bob", password := "password123" }).1
      = .ok { id := 2, email := "A@x.com", name := "Bob" } ∧
    emailsCaseFoldedUnique (create_user demoStore 2 8
      { email := "A@x.com", name := "Bob", password := "password123" }).2 = false := by
  decide

/-- Claim C5 (amended): registration preserves the case-folded
email-uniqueness invariant, but the authenticated user-creation and
user-update endpoints check only exact-string uniqueness, so each can
produce two accounts whose emails compare equal after case folding. -/
theorem C5_invariant_register_only :
    (∀ store freshId salt req, emailsCaseFoldedUnique store = true →
      emailsCaseFoldedUnique (register_user store freshId salt req).2 = true) ∧
    (emailsCaseFoldedUnique demoStore = true ∧
      emailsCaseFoldedUnique (create_user demoStore 2 8
        { email := "A@x.com", name := "Bob", password := "password123" }).2 = false) ∧
    (emailsCaseFoldedUnique demoStore2 = true ∧
      emailsCaseFoldedUnique (update_user demoStore2 2
        { email := some "A@x.com", name := none }).2 = false) := by
  refine ⟨?_, by decide, by decide⟩
  intro store freshId salt req hinv
  by_cases hg : store.any (fun u => pyLower u.email == pyLower req.email) = true
  · simp [register_user, hg, hinv]
  · have hg' : store.any (fun u => pyLower u.email == pyLower req.email) = false :=
      Bool.eq_false_iff.mpr hg
    simp only [register_user, hg', Bool.false_eq_true, if_false]
    refine emailsCaseFoldedUnique_append store _ hinv ?_
    intro u hu
    have := List.any_eq_true.not.mp (Bool.eq_false_iff.mp hg')
    push_neg at this
    have h2 := this u hu
    exact Bool.eq_false_iff.mpr h2

/-- Witness for C5 (amended): registering a fresh email into `demoStore`
preserves the invariant. -/
theorem C5_invariant_register_only_witness :
    emailsCaseFoldedUnique (register_user demoStore 5 9
      { email := "c@z.com", name := "Cyn", password := "password123" }).2 = true :=
  C5_invariant_register_only.1 demoStore 5 9
    { email := "c@z.com", name := "Cyn", password := "password123" } (by decide)

/-- Claim C7: password verification against a malformed stored hash returns
false (it never escapes as a distinct error), and logging in against an
account whose stored hash is malformed yields the ordinary 401 login
failure. -/
theorem C7_malformed_hash_ordinary_failure (store : Store) (s : Settings)
    (now : Nat) (req : UserLogin) (u : User) (raw : String) :
    pwd_context_verify req.password (.malformed raw) = false ∧
    (store.find? (fun x => x.email == req.email) = some u →
      u.password_hash = .malformed raw →
      login_user store s now req = .error login_failure) := by
  refine ⟨rfl, ?_⟩
  intro hfind hmal
  simp [login_user, hfind, hmal, pwd_context_verify]

/-- Witness for C7: a concrete account stored with the malformed hash
"not-a-hash" produces the ordinary login failure. -/
theorem C7_malformed_hash_ordinary_failure_witness :
    pwd_context_verify "password123"
      (.malformed "not-a-hash") = false ∧
    login_user
      [{ id := 1, name := "Mal", email := "m@x.com",
         password_hash := .malformed "not-a-hash" }]
      defaultSettings 1000 { email := "m@x.com", password := "password123" }
      = .error login_failure :=
  ⟨(C7_malformed_hash_ordinary_failure
      [{ id := 1, name := "Mal", email := "m@x.com",
         password_hash := .malformed "not-a-hash" }]
      defaultSettings 1000 { email := "m@x.com", password := "password123" }
      { id := 1, name := "Mal", email := "m@x.com",
        password_hash := .malformed "not-a-hash" } "not-a-hash").1,
   (C7_malformed_hash_ordinary_failure
      [{ id := 1, name := "Mal", email := "m@x.com",
         password_hash := .malformed "not-a-hash" }]
      defaultSettings 1000 { email := "m@x.com", password := "password123" }
      { id := 1, name := "Mal", email := "m@x.com",
        password_hash := .malformed "not-a-hash" } "not-a-hash").2
     (by decide) (by decide)⟩

/-- Claim C8: for every plaintext `p` and salt, verification of `p` against
the hash produced from `p` succeeds, and the hash carries the configured
bcrypt cost factor 12. -/
theorem C8_hash_verify_roundtrip (p : String) (salt : Nat) :
    pwd_context_verify p (pwd_context_hash p salt) = true ∧
    hashCost (pwd_context_hash p salt) = some 12 := by
  simp [pwd_context_verify, pwd_context_hash, hashCost, bcryptRounds]

/-- Claim C9: for an authenticated caller, logout acknowledges the call and
changes nothing: the store and settings after the call are the ones passed
in, so verification of any credential at any time gives the same result
after logout as before it. -/
theorem C9_logout_is_noop (store : Store) (s : Settings) (now : Nat)
    (b : Bearer) (u : User)
    (hauth : get_current_user store s now b = .ok u) :
    (logout_user store s u).1 = "Successfully logged out" ∧
    (logout_user store s u).2.1 = store ∧
    (logout_user store s u).2.2 = s ∧
    ∀ now2 b2,
      get_current_user (logout_user store s u).2.1 (logout_user store s u).2.2
        now2 b2 = get_current_user store s now2 b2 :=
  ⟨rfl, rfl, rfl, fun _ _ => rfl⟩

/-- Witness for C9: the token that verified at time 1000 verifies
identically against the post-logout state. -/
theorem C9_logout_is_noop_witness :
    (logout_user [wUser] defaultSettings wUser).1 = "Successfully logged out" ∧
    (logout_user [wUser] defaultSettings wUser).2.1 = [wUser] ∧
    (logout_user [wUser] defaultSettings wUser).2.2 = defaultSettings ∧
    get_current_user (logout_user [wUser] defaultSettings wUser).2.1
      (logout_user [wUser] defaultSettings wUser).2.2 1000 (.signed wToken)
      = get_current_user [wUser] defaultSettings 1000 (.signed wToken) :=
  have h := C9_logout_is_noop [wUser] defaultSettings 1000 (.signed wToken) wUser
    (by decide)
  ⟨h.1, h.2.1, h.2.2.1, h.2.2.2 1000 (.signed wToken)⟩

end AndamiosApi
